import Mathlib

/-!
Verification development for the seo-domain-checker database layer.

The embedding covers the two source modules:
  * `src/db/db.py`   — configuration resolution, per-thread connection
    management, and the transactional write helper
    `persist_domain_categories`;
  * `src/init_db.py` — the schema bootstrapper (SQLite and PostgreSQL
    variants) and its command-line entry point.

Python strings are embedded as `List Char` (`PyStr`), with the string
operations the source uses (`startswith`, `replace`, `split`, `lower`,
`int(...)`) implemented as structurally recursive, kernel-executable
functions mirroring Python semantics for the inputs that occur.
-/

abbrev PyStr := List Char

/-- Coerce a Lean string literal into the `List Char` embedding. -/
def str (s : String) : PyStr := s.data

/-- Python `s.startswith(p)`; arguments are `(s, p)`. -/
def strStartsWith : PyStr → PyStr → Bool
  | _, [] => true
  | [], _ :: _ => false
  | c :: s, p :: ps => c == p && strStartsWith s ps

/-- Fuel-indexed worker for `strReplace`; the fuel is the length of the
string being scanned, which bounds the number of steps since every step
consumes at least one character. -/
def strReplaceFuel (old new : PyStr) : Nat → PyStr → PyStr
  | 0, s => s
  | fuel + 1, s =>
    match s with
    | [] => []
    | c :: rest =>
      if strStartsWith s old then new ++ strReplaceFuel old new fuel (List.drop old.length s)
      else c :: strReplaceFuel old new fuel rest

/-- Python `s.replace(old, new)`: replace every non-overlapping occurrence
of `old`, scanning left to right. The source only calls it with non-empty
`old`; for empty `old` we return `s` unchanged. -/
def strReplace (s old new : PyStr) : PyStr :=
  if old.isEmpty then s else strReplaceFuel old new s.length s

/-- Fuel-indexed worker for `strSplit`, carrying the reversed current
chunk as an accumulator. -/
def strSplitAux (sep : PyStr) : Nat → PyStr → PyStr → List PyStr
  | 0, acc, s => [acc.reverse ++ s]
  | fuel + 1, acc, s =>
    match s with
    | [] => [acc.reverse]
    | c :: rest =>
      if strStartsWith s sep then acc.reverse :: strSplitAux sep fuel [] (List.drop sep.length s)
      else strSplitAux sep fuel (c :: acc) rest

/-- Python `s.split(sep)` for a non-empty separator: e.g.
`"a@b".split("@") = ["a","b"]`, `"ab".split("@") = ["ab"]`,
`"@".split("@") = ["",""]`. The source never calls it with an empty
separator. -/
def strSplit (s sep : PyStr) : List PyStr :=
  if sep.isEmpty then [s] else strSplitAux sep s.length [] s

/-- ASCII lower-casing of one character (what `str.lower` does on the
ASCII configuration values that occur here). -/
def pyCharLower (c : Char) : Char :=
  if 65 ≤ c.toNat ∧ c.toNat ≤ 90 then Char.ofNat (c.toNat + 32) else c

/-- Python `s.lower()` on ASCII strings. -/
def strLower (s : PyStr) : PyStr := s.map pyCharLower

/-- Digit-accumulator worker for `strToNat?`. -/
def strToNatAux : PyStr → Nat → Option Nat
  | [], acc => some acc
  | c :: rest, acc =>
    if c.isDigit then strToNatAux rest (acc * 10 + (c.toNat - 48)) else none

/-- Python `int(s)` on non-negative decimal literals: `some` the value on
an all-digit non-empty string, `none` (a raised `ValueError`) otherwise. -/
def strToNat? : PyStr → Option Nat
  | [] => none
  | s => strToNatAux s 0

/-- Whether an `Except` computation finished without raising. -/
def exceptOk {ε α : Type} : Except ε α → Bool
  | Except.ok _ => true
  | Except.error _ => false

namespace Db

/-!
Embedding of `src/db/db.py`.
-/

/-- The `class DatabaseType(str, Enum)` of db.py lines 24-26. -/
inductive DatabaseType
  | SQLITE
  | POSTGRESQL
deriving DecidableEq, Repr

/-- The process environment as read through `os.environ.get`, plus the
working directory used by `os.path.abspath(os.getcwd())` (db.py line 42). -/
structure Env where
  vars : PyStr → Option PyStr
  cwd : PyStr

/-- Python `os.environ.get(k, d)`. -/
def pyGetD (e : Env) (k d : PyStr) : PyStr := (e.vars k).getD d

/-- Python `a or b` where `a` is `os.environ.get(k)` (an optional string,
falsy when absent or empty) and `b` is already a string. -/
def pyOr (a : Option PyStr) (b : PyStr) : PyStr :=
  match a with
  | some s => if s.isEmpty then b else s
  | none => b

/-- db.py line 31: `DB_TYPE = os.environ.get("DB_TYPE", "sqlite").lower()`. -/
def DB_TYPE (e : Env) : PyStr := strLower (pyGetD e (str "DB_TYPE") (str "sqlite"))

/-- db.py line 34: `POSTGRES_HOST or os.environ.get("DB_HOST", "localhost")`. -/
def DB_HOST (e : Env) : PyStr :=
  pyOr (e.vars (str "POSTGRES_HOST")) (pyGetD e (str "DB_HOST") (str "localhost"))

/-- db.py line 35. -/
def DB_PORT (e : Env) : PyStr :=
  pyOr (e.vars (str "POSTGRES_PORT")) (pyGetD e (str "DB_PORT") (str "5432"))

/-- db.py line 36. -/
def DB_NAME (e : Env) : PyStr :=
  pyOr (e.vars (str "POSTGRES_DB")) (pyGetD e (str "DB_NAME") (str "seo_checker"))

/-- db.py line 37. -/
def DB_USER (e : Env) : PyStr :=
  pyOr (e.vars (str "POSTGRES_USER")) (pyGetD e (str "DB_USER") (str "postgres"))

/-- db.py line 38. -/
def DB_PASSWORD (e : Env) : PyStr :=
  pyOr (e.vars (str "POSTGRES_PASSWORD")) (pyGetD e (str "DB_PASSWORD") (str "password"))

/-- db.py line 39: `DATABASE_URL = os.environ.get("DATABASE_URL")`. -/
def DATABASE_URL (e : Env) : Option PyStr := e.vars (str "DATABASE_URL")

/-- db.py lines 42-43: `SQLITE_DB_PATH`, defaulting to
`os.path.join(os.getcwd(), "ahrefs_data.db")` (the working directory is
an absolute path without a trailing slash, so the join is concatenation
with one separator). -/
def SQLITE_DB_PATH (e : Env) : PyStr :=
  pyGetD e (str "SQLITE_DB_PATH") (e.cwd ++ str "/ahrefs_data.db")

/-- The url built by the `DB_TYPE` branch of `get_database_url`
(db.py lines 56-59), split out as a helper. -/
def db_url_from_parts (e : Env) : PyStr :=
  if DB_TYPE e = str "postgresql" then
    str "postgresql://" ++ DB_USER e ++ str ":" ++ DB_PASSWORD e ++ str "@" ++
      DB_HOST e ++ str ":" ++ DB_PORT e ++ str "/" ++ DB_NAME e
  else
    str "sqlite:///" ++ SQLITE_DB_PATH e

/-- db.py lines 51-59: `get_database_url`. `if DATABASE_URL:` is Python
truthiness, so an absent or empty `DATABASE_URL` falls through. -/
def get_database_url (e : Env) : PyStr :=
  match DATABASE_URL e with
  | some u => if u.isEmpty then db_url_from_parts e else u
  | none => db_url_from_parts e

/-- The `_connection_params` module global (db.py line 48): `{}` at import
time, then either the SQLite dict of line 94 or the PostgreSQL dict of
lines 85-91. -/
inductive ConnParams
  | empty
  | sqliteParams (database : PyStr)
  | postgresParams (host : PyStr) (port : Nat) (database user password : PyStr)
deriving DecidableEq, Repr

/-- The module-level mutable globals of db.py lines 46-48:
`_db_initialized`, `_db_type`, `_connection_params`. -/
structure DbGlobals where
  db_initialized : Bool
  db_type : DatabaseType
  connection_params : ConnParams
deriving DecidableEq, Repr

/-- The import-time values of the globals (db.py lines 46-48). -/
def initialGlobals : DbGlobals :=
  { db_initialized := false, db_type := DatabaseType.SQLITE, connection_params := ConnParams.empty }

/-- Python `int(s)` as used on the port substring (db.py line 87): raises
`ValueError` on a non-numeric string. -/
def pyInt (s : PyStr) : Except PyStr Nat :=
  match strToNat? s with
  | some n => Except.ok n
  | none => Except.error (str "invalid literal for int()")

/-- db.py lines 62-107: `init_database`. `postgres_available` embeds the
import-time `POSTGRES_AVAILABLE` flag (lines 11-16). The Alembic upgrade
(lines 97-104) is an external collaborator whose exceptions are caught and
logged, so it has no effect on the embedded state. On the raise paths the
`Except.error` result discards the in-progress global mutations, which no
later read can observe because `_db_initialized` was never set. -/
def init_database (e : Env) (postgres_available : Bool) (g : DbGlobals)
    (db_url_arg : Option PyStr) : Except PyStr DbGlobals :=
  let db_url :=
    match db_url_arg with
    | none => get_database_url e
    | some u => if u.isEmpty then get_database_url e else u
  let parsed : Except PyStr DbGlobals :=
    if strStartsWith db_url (str "postgresql") then
      if postgres_available = false then
        Except.error (str "PostgreSQL support not available. Install psycopg2-binary")
      else
        let parts := strSplit (strReplace db_url (str "postgresql://") []) (str "@")
        if parts.length = 2 then
          let user_pass := strSplit (parts.getD 0 []) (str ":")
          let host_port_db := strSplit (parts.getD 1 []) (str "/")
          let host_port := strSplit (host_port_db.getD 0 []) (str ":")
          match (if 1 < host_port.length then pyInt (host_port.getD 1 []) else Except.ok 5432) with
          | Except.error msg => Except.error msg
          | Except.ok port =>
            Except.ok { g with
              db_type := DatabaseType.POSTGRESQL,
              connection_params := ConnParams.postgresParams
                (host_port.getD 0 [])
                port
                (if 1 < host_port_db.length then host_port_db.getD 1 [] else DB_NAME e)
                (if 0 < user_pass.length then user_pass.getD 0 [] else DB_USER e)
                (if 1 < user_pass.length then user_pass.getD 1 [] else DB_PASSWORD e) }
        else
          Except.ok { g with db_type := DatabaseType.POSTGRESQL }
    else
      Except.ok { g with
        db_type := DatabaseType.SQLITE,
        connection_params := ConnParams.sqliteParams (strReplace db_url (str "sqlite:///") []) }
  parsed.map (fun g2 => { g2 with db_initialized := true })

/-- One row of the `batch_analysis` table (the columns the write helper
touches; the rest of the schema is an external collaborator). -/
structure Row where
  target_id : String
  domain : String
  domain_category : String
deriving DecidableEq, Repr

/-- The visible contents of the `batch_analysis` table. -/
abbrev Tbl := List Row

/-- A DB-API connection: the last committed table contents, the pending
(in-transaction) contents seen through this connection's cursors, whether
`close()` has been called, and whether the SQLite
`PRAGMA foreign_keys = ON` was issued on it (db.py line 126). -/
structure PyConn where
  committed : Tbl
  pending : Tbl
  closed : Bool
  foreign_keys : Bool
deriving DecidableEq, Repr

abbrev ThreadId := Nat

abbrev ConnHandle := Nat

/-- The mutable state the connection manager touches: the module globals,
the `_thread_local.conn` slot of every thread (db.py line 45, `none` when
the attribute is unset), a fresh-handle counter standing for allocation of
new connection objects, the state of every connection object, and the
durable backend contents that a newly opened connection sees. -/
structure World where
  globals : DbGlobals
  threadConn : ThreadId → Option ConnHandle
  nextHandle : Nat
  conns : ConnHandle → PyConn
  backendTbl : Tbl

/-- db.py lines 110-130: `get_thread_connection`, run by thread `t`.
Raises `RuntimeError` when `_db_initialized` is unset; otherwise returns
the cached `_thread_local.conn` if present, else opens a fresh connection
(with `PRAGMA foreign_keys = ON` on the SQLite branch, and the psycopg2
connection with `autocommit = False` on the PostgreSQL branch) and caches
it in this thread's slot. -/
def get_thread_connection (t : ThreadId) (w : World) : Except String (ConnHandle × World) :=
  if w.globals.db_initialized = false then
    Except.error "Database not initialized. Call init_database() first."
  else
    match w.threadConn t with
    | some conn => Except.ok (conn, w)
    | none =>
      let conn := w.nextHandle
      let newConn : PyConn :=
        if w.globals.db_type = DatabaseType.POSTGRESQL then
          { committed := w.backendTbl, pending := w.backendTbl, closed := false,
            foreign_keys := false }
        else
          { committed := w.backendTbl, pending := w.backendTbl, closed := false,
            foreign_keys := true }
      Except.ok (conn,
        { w with
          nextHandle := conn + 1,
          threadConn := fun t2 => if t2 = t then some conn else w.threadConn t2,
          conns := fun h => if h = conn then newConn else w.conns h })

/-- db.py lines 141-146: `close_thread_connection` for thread `t`: close
the cached connection, if any, and clear the thread-local slot. -/
def close_thread_connection (t : ThreadId) (w : World) : World :=
  match w.threadConn t with
  | some c =>
    { w with
      conns := fun h => if h = c then { w.conns h with closed := true } else w.conns h,
      threadConn := fun t2 => if t2 = t then none else w.threadConn t2 }
  | none => w

/-- The effect of one successful `UPDATE batch_analysis SET
domain_category = ? WHERE target_id = ? AND domain = ?` (db.py
lines 154-168) on the table contents. -/
def applyUpdate (tbl : Tbl) (category target_id domain : String) : Tbl :=
  tbl.map fun r =>
    if r.target_id = target_id && r.domain = domain then
      { r with domain_category := category }
    else r

/-- Outcome of `persist_domain_categories`: the final connection state,
whether the call re-raised an exception, and how many `cur.execute` update
statements were issued. -/
structure PersistResult where
  conn : PyConn
  raised : Bool
  executes : Nat
deriving Repr

/-- The `for domain, category in domain_categories.items()` loop of db.py
lines 153-168, over the pending table contents. `fails category target_id
domain` says whether that `cur.execute` raises (e.g. a constraint
violation, which leaves the statement without effect). Returns the pending
contents when the loop ends or the exception is raised, whether it raised,
and the number of `cur.execute` calls issued. -/
def persistLoop (fails : String → String → String → Bool) (target_id : String) :
    List (String × String) → Tbl → Tbl × Bool × Nat
  | [], tbl => (tbl, false, 0)
  | (domain, category) :: rest, tbl =>
    if fails category target_id domain then (tbl, true, 1)
    else
      let r := persistLoop fails target_id rest (applyUpdate tbl category target_id domain)
      (r.1, r.2.1, r.2.2 + 1)

/-- db.py lines 149-177: `persist_domain_categories`. The `try` body runs
the update loop and then `conn.commit()`; `except` runs `conn.rollback()`
(restoring the last committed contents) and re-raises; `finally` runs
`conn.close()` exactly when the backend is SQLite. `db_type` is the
`_db_type` module global. -/
def persist_domain_categories (db_type : DatabaseType)
    (fails : String → String → String → Bool) (conn : PyConn) (target_id : String)
    (domain_categories : List (String × String)) : PersistResult :=
  let r := persistLoop fails target_id domain_categories conn.pending
  let conn2 :=
    if r.2.1 then { conn with pending := conn.committed }
    else { conn with pending := r.1, committed := r.1 }
  let conn3 := if db_type = DatabaseType.SQLITE then { conn2 with closed := true } else conn2
  { conn := conn3, raised := r.2.1, executes := r.2.2 }

/-- The helper `persist_domain_categories` lifted to the world state: it gets
the connection object `c` from its caller, reads only the `_db_type`
global, and writes only the state of that connection object (a commit also
makes the new contents durable). It never touches `_thread_local`. -/
def persist_world (fails : String → String → String → Bool) (w : World) (c : ConnHandle)
    (target_id : String) (domain_categories : List (String × String)) : World × Bool :=
  let r := persist_domain_categories w.globals.db_type fails (w.conns c) target_id
    domain_categories
  ({ w with
      conns := fun h => if h = c then r.conn else w.conns h,
      backendTbl := if r.raised then w.backendTbl else r.conn.committed },
   r.raised)

end Db

namespace InitDb

/-!
Embedding of `src/init_db.py`.

The schema definition file is an external collaborator; it is embedded by
its observable effect: the set of tables its statements create, plus a
flag saying whether executing it raises. The target database is embedded
as the list of tables that exist in it.
-/

/-- The schema definition file at `/app/ddl/001-initial-schema.sql`,
abstracted to the tables its statements create and whether executing it
raises an error. -/
structure Script where
  creates : List String
  execError : Bool
deriving DecidableEq, Repr

/-- The catalog of the target database: which tables exist. -/
structure SchemaDb where
  tables : List String
deriving DecidableEq, Repr

/-- What one bootstrap call reports: the resulting database catalog, the
boolean the function returns, and whether it took the
"tables already exist. Skipping initialization." branch. -/
structure InitResult where
  db : SchemaDb
  success : Bool
  alreadyExists : Bool
deriving DecidableEq, Repr

/-- init_db.py lines 24-71: `init_sqlite_database`. `schemaFile` is `none`
when `/app/ddl/001-initial-schema.sql` is absent (`os.path.exists` false,
lines 43-46). The function checks `sqlite_master` for the sentinel table
`analysis`; if present it is a no-op returning `True`; if absent it loads
and executes the script (any exception is caught by the enclosing
`except`, which logs and returns `False`), commits, and returns `True`.
The whole body is wrapped in `try/except`, so the function returns a
boolean and never raises. -/
def init_sqlite_database (schemaFile : Option Script) (db : SchemaDb) : InitResult :=
  if "analysis" ∈ db.tables then
    { db := db, success := true, alreadyExists := true }
  else
    match schemaFile with
    | none => { db := db, success := false, alreadyExists := false }
    | some script =>
      if script.execError then { db := db, success := false, alreadyExists := false }
      else { db := { tables := db.tables ++ script.creates }, success := true,
             alreadyExists := false }

/-- init_db.py lines 74-157: `init_postgresql_database`. `connectError`
says whether `psycopg2.connect` raises (caught by the enclosing `except`,
which logs and returns `False`). The sentinel check queries
`information_schema.tables` for `analysis`. On the absent branch the
script text gets a token-substitution pass (drop the SQLite pragma, map
`INTEGER`/`REAL` to `INT`/`NUMERIC`), which does not change which tables
the script creates, so it is the identity on this abstraction. The
translated script is then sent in one `cursor.execute` on a connection
with `autocommit = True`: the server runs a multi-statement simple query
in a single implicit transaction, so an execution error leaves none of the
script's changes behind; the `except` logs it and returns `False`. -/
def init_postgresql_database (connectError : Bool) (schemaFile : Option Script)
    (db : SchemaDb) : InitResult :=
  if connectError then { db := db, success := false, alreadyExists := false }
  else if "analysis" ∈ db.tables then
    { db := db, success := true, alreadyExists := true }
  else
    match schemaFile with
    | none => { db := db, success := false, alreadyExists := false }
    | some script =>
      if script.execError then { db := db, success := false, alreadyExists := false }
      else { db := { tables := db.tables ++ script.creates }, success := true,
             alreadyExists := false }

/-- init_db.py lines 160-174: `init_database`, dispatching on the lowered
`DB_TYPE` environment value (line 11). `connectError` only matters on the
PostgreSQL path (SQLite `connect` creates the file and does not fail). -/
def init_database (dbTypeEnv : PyStr) (connectError : Bool) (schemaFile : Option Script)
    (db : SchemaDb) : InitResult :=
  if dbTypeEnv = str "postgresql" then init_postgresql_database connectError schemaFile db
  else init_sqlite_database schemaFile db

/-- init_db.py lines 177-179: the `__main__` block,
`sys.exit(0 if success else 1)`. -/
def main_exit (dbTypeEnv : PyStr) (connectError : Bool) (schemaFile : Option Script)
    (db : SchemaDb) : Nat :=
  if (init_database dbTypeEnv connectError schemaFile db).success then 0 else 1

end InitDb

/-!
Concrete fixtures used to instantiate the theorems below.
-/

/-- An environment built from an association list of variable settings. -/
def envOf (l : List (String × String)) : Db.Env :=
  { vars := fun k => (l.find? fun p => str p.1 == k).map fun p => str p.2,
    cwd := str "/app" }

/-- An open connection over one existing `batch_analysis` row. -/
def testConn : Db.PyConn :=
  { committed := [{ target_id := "t1", domain := "example.com", domain_category := "old" }],
    pending := [{ target_id := "t1", domain := "example.com", domain_category := "old" }],
    closed := false,
    foreign_keys := true }

/-- A world after a successful `init_database` on the SQLite backend, with
no per-thread connections yet. -/
def testWorld : Db.World :=
  { globals := { db_initialized := true, db_type := Db.DatabaseType.SQLITE,
                 connection_params := Db.ConnParams.sqliteParams (str "/app/ahrefs_data.db") },
    threadConn := fun _ => none,
    nextHandle := 0,
    conns := fun _ => { committed := [], pending := [], closed := false, foreign_keys := false },
    backendTbl := [] }

/-- A world before `init_database` has run. -/
def uninitWorld : Db.World :=
  { testWorld with globals := Db.initialGlobals }

/-- A world in which thread `0` has connection `7` cached and open. -/
def cachedWorld : Db.World :=
  { testWorld with
    threadConn := fun t => if t = 0 then some 7 else none,
    nextHandle := 8,
    conns := fun _ => testConn }

/-!
Theorems.
-/

namespace Db

/-- Non-empty embedded strings are not `isEmpty`. -/
theorem isEmpty_eq_false_of_ne_nil {u : PyStr} (h : u ≠ []) : u.isEmpty = false := by
  cases u with
  | nil => exact absurd rfl h
  | cons c cs => rfl

/-- Behaviour of the update loop of `persist_domain_categories`: it raises
exactly when some pair's `cur.execute` fails, and when nothing fails it
issues one update per pair and folds all updates over the starting table
contents. -/
theorem persistLoop_cons_false (fails : String → String → String → Bool)
    (target_id domain category : String) (rest : List (String × String)) (tbl : Tbl)
    (hf : fails category target_id domain = false) :
    persistLoop fails target_id ((domain, category) :: rest) tbl =
      ((persistLoop fails target_id rest (applyUpdate tbl category target_id domain)).1,
       (persistLoop fails target_id rest (applyUpdate tbl category target_id domain)).2.1,
       (persistLoop fails target_id rest (applyUpdate tbl category target_id domain)).2.2
         + 1) := by
  simp [persistLoop, hf]

theorem persistLoop_spec (fails : String → String → String → Bool) (target_id : String)
    (pairs : List (String × String)) (tbl : Tbl) :
    ((persistLoop fails target_id pairs tbl).2.1
      = pairs.any fun p => fails p.2 target_id p.1) ∧
    ((persistLoop fails target_id pairs tbl).2.1 = false →
      (persistLoop fails target_id pairs tbl).2.2 = pairs.length ∧
      (persistLoop fails target_id pairs tbl).1
        = pairs.foldl (fun t p => applyUpdate t p.2 target_id p.1) tbl) := by
  induction pairs generalizing tbl with
  | nil => simp [persistLoop]
  | cons p rest ih =>
    obtain ⟨domain, category⟩ := p
    by_cases hf : fails category target_id domain = true
    · simp [persistLoop, hf]
    · have hfalse : fails category target_id domain = false := by simpa using hf
      have h2 := ih (applyUpdate tbl category target_id domain)
      rw [persistLoop_cons_false fails target_id domain category rest tbl hfalse]
      refine ⟨by simpa [hfalse] using h2.1, fun hr => ?_⟩
      have h3 := h2.2 hr
      exact ⟨by simp [h3.1], h3.2⟩

/-- Normal form of a `persist_domain_categories` call in terms of the
update loop. -/
theorem persist_result_eq (db_type : DatabaseType)
    (fails : String → String → String → Bool) (conn : PyConn) (target_id : String)
    (pairs : List (String × String)) :
    persist_domain_categories db_type fails conn target_id pairs =
      { conn := { committed := if (persistLoop fails target_id pairs conn.pending).2.1 then
                    conn.committed else (persistLoop fails target_id pairs conn.pending).1,
                  pending := if (persistLoop fails target_id pairs conn.pending).2.1 then
                    conn.committed else (persistLoop fails target_id pairs conn.pending).1,
                  closed := if db_type = DatabaseType.SQLITE then true else conn.closed,
                  foreign_keys := conn.foreign_keys },
        raised := (persistLoop fails target_id pairs conn.pending).2.1,
        executes := (persistLoop fails target_id pairs conn.pending).2.2 } := by
  unfold persist_domain_categories
  cases hr : (persistLoop fails target_id pairs conn.pending).2.1 <;>
    cases hdb : db_type <;> simp [hr, hdb]

/-- C1: for every connection, target id and domain-to-category mapping,
`persist_domain_categories` issues one update per pair and commits exactly
when every update succeeds; if any update raises, the updates issued so
far are rolled back (the connection is back at its last committed
contents) and the error is re-raised, so the call never partially
commits. -/
theorem persist_domain_categories_all_or_nothing (db_type : DatabaseType)
    (fails : String → String → String → Bool) (conn : PyConn) (target_id : String)
    (domain_categories : List (String × String)) :
    ((persist_domain_categories db_type fails conn target_id domain_categories).raised
      = domain_categories.any fun p => fails p.2 target_id p.1) ∧
    ((persist_domain_categories db_type fails conn target_id domain_categories).raised
        = false →
      (persist_domain_categories db_type fails conn target_id domain_categories).executes
        = domain_categories.length ∧
      (persist_domain_categories db_type fails conn target_id
          domain_categories).conn.committed
        = domain_categories.foldl (fun t p => applyUpdate t p.2 target_id p.1)
            conn.pending ∧
      (persist_domain_categories db_type fails conn target_id
          domain_categories).conn.pending
        = (persist_domain_categories db_type fails conn target_id
            domain_categories).conn.committed) ∧
    ((persist_domain_categories db_type fails conn target_id domain_categories).raised
        = true →
      (persist_domain_categories db_type fails conn target_id
          domain_categories).conn.committed = conn.committed ∧
      (persist_domain_categories db_type fails conn target_id
          domain_categories).conn.pending = conn.committed) := by
  have hl := persistLoop_spec fails target_id domain_categories conn.pending
  rw [persist_result_eq]
  refine ⟨by simpa using hl.1, fun hr => ?_, fun hr => ?_⟩
  · simp only at hr
    have h2 := hl.2 hr
    simp [hr, h2.1, h2.2]
  · simp only at hr
    simp [hr]

/-- C5: after every `persist_domain_categories` call, raised or not, the
supplied connection has been closed when the backend is SQLite and is
still open when the backend is PostgreSQL. -/
theorem persist_domain_categories_close_behavior (db_type : DatabaseType)
    (fails : String → String → String → Bool) (conn : PyConn) (target_id : String)
    (domain_categories : List (String × String)) (hopen : conn.closed = false) :
    (db_type = DatabaseType.SQLITE →
      (persist_domain_categories db_type fails conn target_id
        domain_categories).conn.closed = true) ∧
    (db_type = DatabaseType.POSTGRESQL →
      (persist_domain_categories db_type fails conn target_id
        domain_categories).conn.closed = false) := by
  rw [persist_result_eq]
  constructor
  · intro h
    simp [h]
  · intro h
    simp [h, hopen]

/-- Witness for C5 at a concrete connection and mapping, on both backends
(the PostgreSQL failing-update case included). -/
theorem persist_domain_categories_close_behavior_witness :
    (persist_domain_categories DatabaseType.SQLITE (fun _ _ _ => false) testConn "t1"
      [("example.com", "news")]).conn.closed = true ∧
    (persist_domain_categories DatabaseType.POSTGRESQL (fun _ _ _ => true) testConn "t1"
      [("example.com", "news")]).conn.closed = false := by
  constructor
  · exact (persist_domain_categories_close_behavior DatabaseType.SQLITE
      (fun _ _ _ => false) testConn "t1" [("example.com", "news")] rfl).1 rfl
  · exact (persist_domain_categories_close_behavior DatabaseType.POSTGRESQL
      (fun _ _ _ => true) testConn "t1" [("example.com", "news")] rfl).2 rfl

/-- Witness for C1 on a concrete connection and mapping: one update
issued and committed when nothing fails, and the committed contents
untouched when the single update fails. -/
theorem persist_domain_categories_all_or_nothing_witness :
    (persist_domain_categories DatabaseType.SQLITE (fun _ _ _ => false) testConn "t1"
      [("example.com", "news")]).executes = 1 ∧
    (persist_domain_categories DatabaseType.SQLITE (fun _ _ _ => true) testConn "t1"
      [("example.com", "news")]).conn.committed = testConn.committed := by
  constructor
  · exact ((persist_domain_categories_all_or_nothing DatabaseType.SQLITE (fun _ _ _ => false)
      testConn "t1" [("example.com", "news")]).2.1 (by decide)).1
  · exact ((persist_domain_categories_all_or_nothing DatabaseType.SQLITE (fun _ _ _ => true)
      testConn "t1" [("example.com", "news")]).2.2 (by decide)).1

/-- A `get_thread_connection` call that finds a cached connection returns
it and changes nothing. -/
theorem get_thread_connection_cached (t : ThreadId) (w : World) (c : ConnHandle)
    (hinit : w.globals.db_initialized = true) (h : w.threadConn t = some c) :
    get_thread_connection t w = Except.ok (c, w) := by
  simp [get_thread_connection, hinit, h]

/-- A `get_thread_connection` call that finds no cached connection opens a
fresh one, returns the next handle, and caches it in this thread's slot
only. -/
theorem get_thread_connection_fresh (t : ThreadId) (w : World)
    (hinit : w.globals.db_initialized = true) (h : w.threadConn t = none) :
    ∃ w2, get_thread_connection t w = Except.ok (w.nextHandle, w2) ∧
      w2.globals = w.globals ∧
      w2.nextHandle = w.nextHandle + 1 ∧
      (∀ t2, w2.threadConn t2 = if t2 = t then some w.nextHandle else w.threadConn t2) := by
  refine ⟨{ w with
      nextHandle := w.nextHandle + 1,
      threadConn := fun t2 => if t2 = t then some w.nextHandle else w.threadConn t2,
      conns := fun h2 => if h2 = w.nextHandle then
          (if w.globals.db_type = DatabaseType.POSTGRESQL then
            { committed := w.backendTbl, pending := w.backendTbl, closed := false,
              foreign_keys := false }
          else
            { committed := w.backendTbl, pending := w.backendTbl, closed := false,
              foreign_keys := true })
        else w.conns h2 }, ?_, rfl, rfl, fun t2 => rfl⟩
  simp [get_thread_connection, hinit, h]

/-- C3: after initialization, `get_thread_connection` called twice in the
same thread returns the identical connection handle (and leaves the state
unchanged the second time), while calls from two different threads with no
cached connection yet return two distinct handles. -/
theorem get_thread_connection_per_thread_identity (w : World) (t1 t2 : ThreadId)
    (hinit : w.globals.db_initialized = true)
    (h1 : w.threadConn t1 = none) (h2 : w.threadConn t2 = none) (hne : t1 ≠ t2) :
    ∃ c1 w1 c2 w2,
      get_thread_connection t1 w = Except.ok (c1, w1) ∧
      get_thread_connection t1 w1 = Except.ok (c1, w1) ∧
      get_thread_connection t2 w1 = Except.ok (c2, w2) ∧
      c1 ≠ c2 := by
  obtain ⟨w1, e1, hg, hn, ht⟩ := get_thread_connection_fresh t1 w hinit h1
  have e2 : get_thread_connection t1 w1 = Except.ok (w.nextHandle, w1) :=
    get_thread_connection_cached t1 w1 w.nextHandle (by rw [hg]; exact hinit)
      (by rw [ht t1]; simp)
  obtain ⟨w2, e3, _, _, _⟩ := get_thread_connection_fresh t2 w1 (by rw [hg]; exact hinit)
    (by rw [ht t2, if_neg (Ne.symm hne)]; exact h2)
  exact ⟨w.nextHandle, w1, w1.nextHandle, w2, e1, e2, e3,
    by intro hEq; rw [hn] at hEq; simp at hEq⟩

/-- Witness for C3 on a concrete initialized world and threads 0 and 1. -/
theorem get_thread_connection_per_thread_identity_witness :
    ∃ c1 w1 c2 w2,
      get_thread_connection 0 testWorld = Except.ok (c1, w1) ∧
      get_thread_connection 0 w1 = Except.ok (c1, w1) ∧
      get_thread_connection 1 w1 = Except.ok (c2, w2) ∧
      c1 ≠ c2 :=
  get_thread_connection_per_thread_identity testWorld 0 1 rfl rfl rfl (by decide)

/-- C4: `get_thread_connection` succeeds exactly when the process-wide
initialization flag is set, and when it is not set the call fails fast
with the "not initialized" configuration error. -/
theorem get_thread_connection_requires_init (t : ThreadId) (w : World) :
    exceptOk (get_thread_connection t w) = w.globals.db_initialized ∧
    (w.globals.db_initialized = false →
      get_thread_connection t w
        = Except.error "Database not initialized. Call init_database() first.") := by
  cases hinit : w.globals.db_initialized with
  | false => simp [get_thread_connection, hinit, exceptOk]
  | true =>
    cases hc : w.threadConn t with
    | none => simp [get_thread_connection, hinit, hc, exceptOk]
    | some c => simp [get_thread_connection, hinit, hc, exceptOk]

/-- Witness for C4: the call succeeds on an initialized world and returns
the configuration error on an uninitialized one. -/
theorem get_thread_connection_requires_init_witness :
    exceptOk (get_thread_connection 0 testWorld) = true ∧
    get_thread_connection 0 uninitWorld
      = Except.error "Database not initialized. Call init_database() first." := by
  constructor
  · exact ((get_thread_connection_requires_init 0 testWorld).1).trans rfl
  · exact (get_thread_connection_requires_init 0 uninitWorld).2 rfl

/-- C9: `persist_domain_categories` never touches the thread-local cache:
on the SQLite backend it closes the supplied connection, yet the cache
still holds that handle, so a subsequent `get_thread_connection` in the
same thread returns the same, already closed, handle — the invariant "a
cached entry is an open handle" does not survive the call. -/
theorem persist_preserves_thread_cache (w : World) (c : ConnHandle) (t : ThreadId)
    (fails : String → String → String → Bool) (target_id : String)
    (pairs : List (String × String))
    (hinit : w.globals.db_initialized = true)
    (htype : w.globals.db_type = DatabaseType.SQLITE)
    (hcache : w.threadConn t = some c) :
    ((persist_world fails w c target_id pairs).1.threadConn = w.threadConn) ∧
    (((persist_world fails w c target_id pairs).1.conns c).closed = true) ∧
    get_thread_connection t (persist_world fails w c target_id pairs).1
      = Except.ok (c, (persist_world fails w c target_id pairs).1) := by
  refine ⟨rfl, ?_, ?_⟩
  · simp only [persist_world]
    rw [htype, persist_result_eq]
    simp
  · exact get_thread_connection_cached t _ c hinit hcache

/-- Witness for C9 on a concrete world in which thread 0 has connection 7
cached and open. -/
theorem persist_preserves_thread_cache_witness :
    ((Db.persist_world (fun _ _ _ => false) cachedWorld 7 "t1"
        [("example.com", "news")]).1.threadConn = cachedWorld.threadConn) ∧
    (((Db.persist_world (fun _ _ _ => false) cachedWorld 7 "t1"
        [("example.com", "news")]).1.conns 7).closed = true) ∧
    Db.get_thread_connection 0 (Db.persist_world (fun _ _ _ => false) cachedWorld 7 "t1"
        [("example.com", "news")]).1
      = Except.ok (7, (Db.persist_world (fun _ _ _ => false) cachedWorld 7 "t1"
        [("example.com", "news")]).1) :=
  persist_preserves_thread_cache cachedWorld 7 0 (fun _ _ _ => false) "t1"
    [("example.com", "news")] rfl rfl rfl

/-- Behaviour of Python `a or b` on an optional string `a`: a present
non-empty value wins, otherwise `b` is used. -/
theorem pyOr_spec (a : Option PyStr) (b : PyStr) :
    (∀ v, a = some v → v ≠ [] → pyOr a b = v) ∧ (a = none → pyOr a b = b) := by
  constructor
  · intro v hv hne
    rw [hv]
    simp [pyOr, isEmpty_eq_false_of_ne_nil hne]
  · intro hv
    rw [hv]
    rfl

/-- C6: configuration resolution is a total function of the environment:
a non-empty `DATABASE_URL` wins outright over every individual variable;
for each connection parameter the PostgreSQL-specific variable beats the
generic one, the generic one beats the default, and the hard-coded default
is used when neither is set; with no url the resolved url is assembled
from exactly these parameters (PostgreSQL backend kind) or is the SQLite
file url (any other backend kind). -/
theorem get_database_url_precedence (e : Env) :
    (∀ u, DATABASE_URL e = some u → u ≠ [] → get_database_url e = u) ∧
    (∀ v, e.vars (str "POSTGRES_HOST") = some v → v ≠ [] → DB_HOST e = v) ∧
    (e.vars (str "POSTGRES_HOST") = none →
      ∀ v, e.vars (str "DB_HOST") = some v → DB_HOST e = v) ∧
    (e.vars (str "POSTGRES_HOST") = none → e.vars (str "DB_HOST") = none →
      DB_HOST e = str "localhost") ∧
    (∀ v, e.vars (str "POSTGRES_PORT") = some v → v ≠ [] → DB_PORT e = v) ∧
    (e.vars (str "POSTGRES_PORT") = none → e.vars (str "DB_PORT") = none →
      DB_PORT e = str "5432") ∧
    (∀ v, e.vars (str "POSTGRES_DB") = some v → v ≠ [] → DB_NAME e = v) ∧
    (e.vars (str "POSTGRES_DB") = none → e.vars (str "DB_NAME") = none →
      DB_NAME e = str "seo_checker") ∧
    (∀ v, e.vars (str "POSTGRES_USER") = some v → v ≠ [] → DB_USER e = v) ∧
    (e.vars (str "POSTGRES_USER") = none → e.vars (str "DB_USER") = none →
      DB_USER e = str "postgres") ∧
    (∀ v, e.vars (str "POSTGRES_PASSWORD") = some v → v ≠ [] → DB_PASSWORD e = v) ∧
    (e.vars (str "POSTGRES_PASSWORD") = none → e.vars (str "DB_PASSWORD") = none →
      DB_PASSWORD e = str "password") ∧
    (e.vars (str "DB_TYPE") = none → DB_TYPE e = str "sqlite") ∧
    (DATABASE_URL e = none → DB_TYPE e = str "postgresql" →
      get_database_url e = str "postgresql://" ++ DB_USER e ++ str ":" ++ DB_PASSWORD e
        ++ str "@" ++ DB_HOST e ++ str ":" ++ DB_PORT e ++ str "/" ++ DB_NAME e) ∧
    (DATABASE_URL e = none → DB_TYPE e ≠ str "postgresql" →
      get_database_url e = str "sqlite:///" ++ SQLITE_DB_PATH e) := by
  refine ⟨?_, ?_, ?_, ?_, ?_, ?_, ?_, ?_, ?_, ?_, ?_, ?_, ?_, ?_, ?_⟩
  · intro u hu hne
    rw [get_database_url, hu]
    simp [isEmpty_eq_false_of_ne_nil hne]
  · intro v hv hne
    exact (pyOr_spec _ _).1 v hv hne
  · intro h1 v hv
    rw [DB_HOST, (pyOr_spec _ _).2 h1, pyGetD, hv]
    rfl
  · intro h1 h2
    rw [DB_HOST, (pyOr_spec _ _).2 h1, pyGetD, h2]
    rfl
  · intro v hv hne
    exact (pyOr_spec _ _).1 v hv hne
  · intro h1 h2
    rw [DB_PORT, (pyOr_spec _ _).2 h1, pyGetD, h2]
    rfl
  · intro v hv hne
    exact (pyOr_spec _ _).1 v hv hne
  · intro h1 h2
    rw [DB_NAME, (pyOr_spec _ _).2 h1, pyGetD, h2]
    rfl
  · intro v hv hne
    exact (pyOr_spec _ _).1 v hv hne
  · intro h1 h2
    rw [DB_USER, (pyOr_spec _ _).2 h1, pyGetD, h2]
    rfl
  · intro v hv hne
    exact (pyOr_spec _ _).1 v hv hne
  · intro h1 h2
    rw [DB_PASSWORD, (pyOr_spec _ _).2 h1, pyGetD, h2]
    rfl
  · intro h1
    rw [DB_TYPE, pyGetD, h1]
    rfl
  · intro hurl htype
    rw [get_database_url, hurl, db_url_from_parts, if_pos htype]
  · intro hurl htype
    rw [get_database_url, hurl, db_url_from_parts, if_neg htype]

/-- Witness for C6: the url override beats the individual variables; the
PostgreSQL-specific host beats the generic one; the generic host beats the
default; the default applies with nothing set. -/
theorem get_database_url_precedence_witness :
    get_database_url (envOf [("DATABASE_URL", "postgresql://u:p@h:1/d"),
        ("POSTGRES_HOST", "spec-host"), ("DB_HOST", "gen-host")])
      = str "postgresql://u:p@h:1/d" ∧
    DB_HOST (envOf [("POSTGRES_HOST", "spec-host"), ("DB_HOST", "gen-host")])
      = str "spec-host" ∧
    DB_HOST (envOf [("DB_HOST", "gen-host")]) = str "gen-host" ∧
    DB_HOST (envOf []) = str "localhost" := by
  refine ⟨?_, ?_, ?_, ?_⟩
  · exact (get_database_url_precedence _).1 _ (by decide) (by decide)
  · exact (get_database_url_precedence _).2.1 _ (by decide) (by decide)
  · exact (get_database_url_precedence _).2.2.1 (by decide) _ (by decide)
  · exact (get_database_url_precedence _).2.2.2.1 (by decide) (by decide)

/-- C10: called with a `db_url` that starts with `postgresql` but has no
`@` separator (and the driver available), `init_database` selects the
PostgreSQL backend and marks the process initialized without raising, and
the connection-parameter map is left exactly as it was. -/
theorem init_database_url_without_at (e : Env) (g : DbGlobals) (url : PyStr)
    (hpg : strStartsWith url (str "postgresql") = true)
    (hparts : (strSplit (strReplace url (str "postgresql://") []) (str "@")).length = 1) :
    init_database e true g (some url) =
      Except.ok { g with db_type := DatabaseType.POSTGRESQL, db_initialized := true } := by
  have hne : url.isEmpty = false := by
    cases url with
    | nil => exact absurd hpg (by decide)
    | cons c cs => rfl
  rw [init_database]
  simp only [hne, Bool.false_eq_true, if_false, hpg, if_true]
  rw [hparts]
  simp [Except.map]

/-- Witness for C10 on a concrete `@`-free PostgreSQL url, starting from
the import-time globals (empty parameter map). -/
theorem init_database_url_without_at_witness :
    init_database (envOf []) true initialGlobals (some (str "postgresql://localhost:5432/db"))
      = Except.ok { db_initialized := true, db_type := DatabaseType.POSTGRESQL, connection_params := ConnParams.empty } :=
  init_database_url_without_at (envOf []) initialGlobals
    (str "postgresql://localhost:5432/db") (by decide) (by decide)

end Db

namespace InitDb

/-- C2: on the PostgreSQL backend, an execution error while applying the
schema script makes `init_postgresql_database` return the failure signal
`False` (it does not raise), and the database is left exactly as it was —
no partially applied schema (the script is sent as one multi-statement
query, which the server runs in a single implicit transaction, so its
failure rolls back every statement of the script). -/
theorem init_postgresql_database_exec_error_rolls_back (script : Script) (db : SchemaDb)
    (habs : "analysis" ∉ db.tables) (herr : script.execError = true) :
    init_postgresql_database false (some script) db
      = { db := db, success := false, alreadyExists := false } := by
  simp [init_postgresql_database, habs, herr]

/-- Witness for C2 on a fresh catalog and a script whose execution fails. -/
theorem init_postgresql_database_exec_error_rolls_back_witness :
    init_postgresql_database false (some { creates := ["analysis"], execError := true })
        { tables := [] }
      = { db := { tables := [] }, success := false, alreadyExists := false } :=
  init_postgresql_database_exec_error_rolls_back
    { creates := ["analysis"], execError := true } { tables := [] } (by decide) rfl

/-- C7: when the sentinel table `analysis` already exists, the bootstrap
call changes nothing, reports "already exist" and returns success — on
both backends; consequently a second call in sequence after a successful
first call is a no-op that leaves the catalog (and so the table count)
unchanged. The schema script is assumed to create the sentinel table,
which is what makes the first successful call establish the sentinel. -/
theorem ensure_schema_idempotent (script : Script) (db : SchemaDb)
    (hscript : "analysis" ∈ script.creates) :
    ("analysis" ∈ db.tables →
      init_sqlite_database (some script) db
        = { db := db, success := true, alreadyExists := true } ∧
      init_postgresql_database false (some script) db
        = { db := db, success := true, alreadyExists := true }) ∧
    ((init_sqlite_database (some script) db).success = true →
      init_sqlite_database (some script) (init_sqlite_database (some script) db).db
        = { db := (init_sqlite_database (some script) db).db, success := true,
            alreadyExists := true }) ∧
    ((init_postgresql_database false (some script) db).success = true →
      init_postgresql_database false (some script)
          (init_postgresql_database false (some script) db).db
        = { db := (init_postgresql_database false (some script) db).db, success := true,
            alreadyExists := true }) := by
  have hboth : ∀ d : SchemaDb, "analysis" ∈ d.tables →
      init_sqlite_database (some script) d
        = { db := d, success := true, alreadyExists := true } ∧
      init_postgresql_database false (some script) d
        = { db := d, success := true, alreadyExists := true } := by
    intro d hd
    constructor
    · simp [init_sqlite_database, hd]
    · simp [init_postgresql_database, hd]
  refine ⟨hboth db, fun hs => ?_, fun hs => ?_⟩
  · refine (hboth _ ?_).1
    by_cases hmem : "analysis" ∈ db.tables
    · simp [init_sqlite_database, hmem]
    · by_cases herr : script.execError = true
      · exfalso
        simp [init_sqlite_database, hmem, herr] at hs
      · simp [init_sqlite_database, hmem, herr, hscript]
  · refine (hboth _ ?_).2
    by_cases hmem : "analysis" ∈ db.tables
    · simp [init_postgresql_database, hmem]
    · by_cases herr : script.execError = true
      · exfalso
        simp [init_postgresql_database, hmem, herr] at hs
      · simp [init_postgresql_database, hmem, herr, hscript]

/-- Witness for C7: against a fresh catalog, a successful first SQLite
bootstrap followed by a second call that is a reported no-op. -/
theorem ensure_schema_idempotent_witness :
    init_sqlite_database (some { creates := ["analysis", "batch_analysis"], execError := false })
        (init_sqlite_database
          (some { creates := ["analysis", "batch_analysis"], execError := false })
          { tables := [] }).db
      = { db := (init_sqlite_database
            (some { creates := ["analysis", "batch_analysis"], execError := false })
            { tables := [] }).db,
          success := true, alreadyExists := true } :=
  (ensure_schema_idempotent { creates := ["analysis", "batch_analysis"], execError := false }
    { tables := [] } (by decide)).2.1 (by decide)

/-- C8: with the schema file missing and the sentinel table absent, the
bootstrap returns the failure signal `False` instead of raising, leaves
the sentinel table absent (catalog unchanged), and the entry point exits
with code 1; when the bootstrap succeeds the entry point exits 0. -/
theorem missing_schema_file_fails_closed (db : SchemaDb)
    (habs : "analysis" ∉ db.tables) :
    init_sqlite_database none db = { db := db, success := false, alreadyExists := false } ∧
    "analysis" ∉ (init_sqlite_database none db).db.tables ∧
    init_postgresql_database false none db
      = { db := db, success := false, alreadyExists := false } ∧
    main_exit (str "sqlite") false none db = 1 ∧
    main_exit (str "postgresql") false none db = 1 ∧
    (∀ dt ce sf d, (init_database dt ce sf d).success = true →
      main_exit dt ce sf d = 0) := by
  have h1 : init_sqlite_database none db
      = { db := db, success := false, alreadyExists := false } := by
    simp [init_sqlite_database, habs]
  have h2 : init_postgresql_database false none db
      = { db := db, success := false, alreadyExists := false } := by
    simp [init_postgresql_database, habs]
  have hne : ¬(str "sqlite" = str "postgresql") := by decide
  refine ⟨h1, ?_, h2, ?_, ?_, ?_⟩
  · rw [h1]
    exact habs
  · simp [main_exit, init_database, hne, h1]
  · simp [main_exit, init_database, h2]
  · intro dt ce sf d h
    simp [main_exit, h]

/-- Witness for C8: a concrete missing-file run exits 1, and a concrete
successful run exits 0. -/
theorem missing_schema_file_fails_closed_witness :
    main_exit (str "sqlite") false none { tables := [] } = 1 ∧
    main_exit (str "sqlite") false (some { creates := ["analysis"], execError := false })
      { tables := [] } = 0 := by
  constructor
  · exact (missing_schema_file_fails_closed { tables := [] } (by decide)).2.2.2.1
  · exact (missing_schema_file_fails_closed { tables := [] } (by decide)).2.2.2.2.2
      (str "sqlite") false (some { creates := ["analysis"], execError := false })
      { tables := [] } (by decide)

end InitDb
